import Mathlib

/-!
Shallow embedding of the keybag-client session/token management core:
the CSRF cookie cache, the auth-token fetcher with bounded retry
(`src/utils/authTokenUtils.tsx`), the axios response interceptor that
coordinates single-flight token refresh (the axios instance module), and
the `PrivateRoute` session guard.  The browser's single-threaded event
loop means each synchronous section of an async handler runs atomically
between awaits, so the response interceptor is embedded as two atomic
phases: the synchronous prefix up to the `await axios.post` of the
refresh call (`respErrorEntry`), and the continuation that runs when the
refresh call settles (`respErrorContinue`).  Module-level mutable state
is threaded explicitly through `SysState`.
-/

/-- JavaScript truthiness of an optional string: `undefined`/`null` and the
empty string are falsy, every other string is truthy. -/
def truthyStr : Option String → Bool
  | none => false
  | some s => !(s == "")

/-- Value of a hexadecimal digit character, if it is one. -/
def hexDigitVal (c : Char) : Option Nat :=
  if '0' ≤ c ∧ c ≤ '9' then some (c.toNat - '0'.toNat)
  else if 'a' ≤ c ∧ c ≤ 'f' then some (c.toNat - 'a'.toNat + 10)
  else if 'A' ≤ c ∧ c ≤ 'F' then some (c.toNat - 'A'.toNat + 10)
  else none

/-- Percent-decoding on a character list, embedding `decodeURIComponent` at
the level the cookie values need: a `%` followed by two hex digits decodes
to the byte they denote; anything else passes through. -/
def percentDecodeChars : List Char → List Char
  | [] => []
  | '%' :: a :: b :: rest =>
    match hexDigitVal a, hexDigitVal b with
    | some hi, some lo => Char.ofNat (16 * hi + lo) :: percentDecodeChars rest
    | _, _ => '%' :: percentDecodeChars (a :: b :: rest)
  | c :: rest => c :: percentDecodeChars rest

/-- String form of the percent decoder. -/
def decodeURIComponent (s : String) : String :=
  String.mk (percentDecodeChars s.data)

/-- JS `String.split` on the two-character separator `"; "` used on
`document.cookie`: scan left to right, cutting at each non-overlapping
occurrence of `"; "`.  `acc` holds the current piece reversed. -/
def splitCookieList : List Char → List Char → List (List Char)
  | [], acc => [acc.reverse]
  | ';' :: ' ' :: xs, acc => acc.reverse :: splitCookieList xs []
  | x :: xs, acc => splitCookieList xs (x :: acc)

/-- JS `String.split` on `"="`, used on each individual cookie. -/
def splitEqList : List Char → List Char → List (List Char)
  | [], acc => [acc.reverse]
  | '=' :: xs, acc => acc.reverse :: splitEqList xs []
  | x :: xs, acc => splitEqList xs (x :: acc)

/-- `getCookieByName` from the source (both modules hold an identical copy):
split `document.cookie` on `"; "`, split each cookie on `"="`, and for the
first cookie whose key equals the requested name return the percent-decoded
value.  A cookie with no `"="` destructures its value to JS `undefined`,
which `decodeURIComponent` coerces to the literal string `"undefined"`. -/
def getCookieByName (cookieStr name : String) : Option String :=
  ((splitCookieList cookieStr.data []).filterMap (fun cookie =>
    let parts := splitEqList cookie []
    if String.mk (parts.getD 0 []) == name then
      some (decodeURIComponent (String.mk (parts.getD 1 "undefined".data)))
    else none)).head?

/-- A settled queued promise: resolved with a token, or rejected with an
axios error. -/
inductive Settle where
  | resolved (token : String)
  | rejected (errStatus : Nat)
deriving Repr, DecidableEq

/-- Outcome of one `fetch` of the token endpoint: a 2xx response whose
parsed body has the given `token` field (`none` when the field is absent),
or a failure (network error or non-ok status, both of which throw in the
source and land in the `catch`). -/
inductive FetchResult where
  | ok (token : Option String)
  | fail
deriving Repr, DecidableEq

/-- All module-level mutable state of the client, threaded explicitly:
the auth-token cache and the `authTokenUtils` module's CSRF cache, the
axios module's own (separate) CSRF cache, the refresh flag and pending
queue, plus observation counters for network refresh calls, settled
queue promises, the axios default Authorization header, and redirects
to `/login`. -/
structure SysState where
  authTokenCache : Option String
  csrfTokenCacheU : Option String
  csrfTokenCacheA : Option String
  isRefreshing : Bool
  failedQueue : List Nat
  settlements : List (Nat × Settle)
  refreshCalls : Nat
  defaultsAuth : Option String
  redirects : Nat
deriving Repr, DecidableEq

/-- The initial module state: empty caches, idle coordinator. -/
def initSys : SysState :=
  { authTokenCache := none, csrfTokenCacheU := none, csrfTokenCacheA := none
    isRefreshing := false, failedQueue := [], settlements := []
    refreshCalls := 0, defaultsAuth := none, redirects := 0 }

/-- Core of the two (duplicated, separately cached) `getCsrfToken`
implementations.  Returns the new cache value, the result, and how many
times the cookie string was parsed (0 on a cache hit, 1 otherwise).
A missing or empty-decoded cookie logs an error and returns `undefined`
without caching. -/
def getCsrfTokenCore (cookieStr : String) (cache : Option String) :
    Option String × Option String × Nat :=
  if truthyStr cache then (cache, cache, 0)
  else
    let csrfToken := getCookieByName cookieStr "XSRF-TOKEN"
    if truthyStr csrfToken then (csrfToken, csrfToken, 1)
    else (cache, none, 1)

/-- The `authTokenUtils` module's `getCsrfToken`, acting on its own cache. -/
def getCsrfTokenU (cookieStr : String) (st : SysState) :
    SysState × Option String × Nat :=
  let r := getCsrfTokenCore cookieStr st.csrfTokenCacheU
  ({ st with csrfTokenCacheU := r.1 }, r.2.1, r.2.2)

/-- The axios module's `getCsrfToken`, acting on its own separate cache. -/
def getCsrfTokenA (cookieStr : String) (st : SysState) :
    SysState × Option String × Nat :=
  let r := getCsrfTokenCore cookieStr st.csrfTokenCacheA
  ({ st with csrfTokenCacheA := r.1 }, r.2.1, r.2.2)

/-- `maxRetries` from `getAuthToken`: 1 initial attempt + 1 retry. -/
def maxRetries : Nat := 2

/-- The `while (attempt < maxRetries)` loop of `getAuthToken`.  `remaining`
is the fuel `maxRetries - attempt`, so the recursion mirrors the loop
guard exactly.  Each iteration performs one fetch (counted in `calls`);
on success the cache is assigned the body's `token` field and returned;
on failure `attempt` is incremented and, when another attempt remains,
the fixed `retryDelay` wait is recorded in `delays`.  Exhausting the loop
returns `none` with the cache untouched. -/
def fetchLoop (retryDelay : Nat) (resp : Nat → FetchResult) (cache : Option String) :
    Nat → Nat → Nat → List Nat → Option String × Option String × Nat × List Nat
  | 0, _, calls, delays => (cache, none, calls, delays)
  | remaining + 1, attempt, calls, delays =>
    match resp attempt with
    | .ok tok => (tok, tok, calls + 1, delays)
    | .fail =>
      if attempt + 1 < maxRetries then
        fetchLoop retryDelay resp cache remaining (attempt + 1) (calls + 1) (delays ++ [retryDelay])
      else
        fetchLoop retryDelay resp cache remaining (attempt + 1) (calls + 1) delays

/-- `getAuthToken(retryDelay = 1000)` from `authTokenUtils`: return the
cache when truthy (no network); otherwise obtain the CSRF token (updating
the utils module's CSRF cache; the token only decorates request headers),
then run the bounded fetch loop.  `resp` gives the outcome of each
attempt.  Returns the new state, the result (`none` after exhaustion —
returned, never thrown), the number of network calls made, and the list
of retry waits performed. -/
def getAuthToken (retryDelay : Nat) (cookieStr : String) (resp : Nat → FetchResult)
    (st : SysState) : SysState × Option String × Nat × List Nat :=
  if truthyStr st.authTokenCache then (st, st.authTokenCache, 0, [])
  else
    let c := getCsrfTokenU cookieStr st
    let r := fetchLoop retryDelay resp st.authTokenCache maxRetries 0 0 []
    ({ c.1 with authTokenCache := r.1 }, r.2.1, r.2.2.1, r.2.2.2)

/-- `ExtendedAxiosRequestConfig`: the request config plus the one-shot
`_retry` marker (`retried` here) and its Authorization header. -/
structure ExtendedAxiosRequestConfig where
  retried : Bool
  authHeader : Option String
deriving Repr, DecidableEq

/-- `processQueue(error, token)`: resolve every queued promise with the
token when it is truthy, else reject every one with the error when one is
given, else leave them unsettled; then reset the queue.  Settlements are
appended in queue (FIFO) order. -/
def processQueue (error : Option Nat) (token : Option String) (st : SysState) : SysState :=
  let newSettlements :=
    if truthyStr token then st.failedQueue.map (fun i => (i, Settle.resolved (token.getD "")))
    else match error with
      | some e => st.failedQueue.map (fun i => (i, Settle.rejected e))
      | none => []
  { st with settlements := st.settlements ++ newSettlements, failedQueue := [] }

/-- What the response-interceptor error handler does with control before
its first suspension point: hand back a promise that is pushed on the
queue, start the refresh call, or fall through to rejecting with the
original error. -/
inductive EntryResult where
  | suspended (promiseId : Nat)
  | refreshStarted
  | rejectOriginal (errStatus : Nat)
deriving Repr, DecidableEq

/-- Synchronous prefix of the response-interceptor error handler, up to
the `await` of the refresh POST.  On a 498 whose request was not yet
retried: if a refresh is in flight, push a fresh promise resolution onto
the queue and suspend; otherwise mark the request `retried`, raise the
refresh flag and issue the refresh call (counted in `refreshCalls`).
Any other error falls through to `Promise.reject(error)`. -/
def respErrorEntry (st : SysState) (errStatus : Nat) (cfg : ExtendedAxiosRequestConfig)
    (freshId : Nat) : SysState × ExtendedAxiosRequestConfig × EntryResult :=
  if errStatus == 498 && !cfg.retried then
    if st.isRefreshing then
      ({ st with failedQueue := st.failedQueue ++ [freshId] }, cfg, .suspended freshId)
    else
      ({ st with isRefreshing := true, refreshCalls := st.refreshCalls + 1 },
       { cfg with retried := true }, .refreshStarted)
  else
    (st, cfg, .rejectOriginal errStatus)

/-- Outcome of the refresh POST: a 2xx response whose body carries the
given `token` field (`none` when absent), or a thrown failure. -/
inductive RefreshHttp where
  | ok (token : Option String)
  | fail
deriving Repr, DecidableEq

/-- Value the interceptor invocation finally produces for the original
request: replay it through the axios instance with the given config, or
reject with the original error's status. -/
inductive FinalResult where
  | replay (cfg : ExtendedAxiosRequestConfig)
  | rejectOriginal (errStatus : Nat)
deriving Repr, DecidableEq

/-- Continuation of the error handler once the refresh POST settles.
On success with a truthy token: install `Bearer <token>` as the axios
default Authorization header and on the original request, resolve the
whole queue with the token, and replay the original request.  On success
with a falsy token: nothing happens to the queue and the original error
is rethrown.  On failure: reject the whole queue with the original
(triggering) error, record one redirect to `/login`, and rethrow the
original error.  The `finally` clause lowers the refresh flag on every
path. -/
def respErrorContinue (st : SysState) (errStatus : Nat) (cfg : ExtendedAxiosRequestConfig)
    (out : RefreshHttp) : SysState × FinalResult :=
  match out with
  | .ok token =>
    if truthyStr token then
      let t := token.getD ""
      let st1 := { st with defaultsAuth := some ("Bearer " ++ t) }
      let cfg1 := { cfg with authHeader := some ("Bearer " ++ t) }
      let st2 := processQueue none (some t) st1
      ({ st2 with isRefreshing := false }, .replay cfg1)
    else
      ({ st with isRefreshing := false }, .rejectOriginal errStatus)
  | .fail =>
    let st1 := processQueue (some errStatus) none st
    let st2 := { st1 with redirects := st1.redirects + 1 }
    ({ st2 with isRefreshing := false }, .rejectOriginal errStatus)

/-- A fresh request config: not yet retried, no Authorization header. -/
def freshCfg : ExtendedAxiosRequestConfig :=
  { retried := false, authHeader := none }

/-- Run the entry phase for each of a batch of 498-failing requests (all
with fresh configs and the listed promise ids), in arrival order. -/
def enterMany (ids : List Nat) (st : SysState) : SysState :=
  ids.foldl (fun s i => (respErrorEntry s 498 freshCfg i).1) st

/-- Driver for the concurrent-498 scenario: request 0 hits a 498 in the
idle state and starts the refresh; `k` further requests (promise ids
`1..k`) hit 498 while it is in flight and are queued; then the refresh
settles with the given outcome and request 0's continuation runs. -/
def scenarioQ (k : Nat) (out : RefreshHttp) : SysState × FinalResult :=
  let e := respErrorEntry initSys 498 freshCfg 0
  let st2 := enterMany (List.range' 1 k) e.1
  respErrorContinue st2 498 e.2.1 out

/-- Result of one run of `PrivateRoute`'s `checkAuth`: the
`setIsAuthenticated` calls made (in order), the number of `navigate`
calls to `/login`, the number of calls to `/account/check-auth`, and the
Authorization header presented to it. -/
structure GuardResult where
  setAuthCalls : List Bool
  navigations : Nat
  checkCalls : Nat
  checkHeader : Option String
deriving Repr, DecidableEq

/-- `PrivateRoute` starts with `isAuthenticated = null`: the Loading
outcome. -/
def initialIsAuthenticated : Option Bool := none

/-- `checkAuth` from `PrivateRoute`.  `mountedAtToken` is the value of
`isMounted` when `fetchToken` settles, `mountedAtCheck` its value when
the check call settles, `tokenResp` the token `fetchToken` produced
(`none` on failure — `fetchToken` swallows its errors to `null`), and
`checkOk` whether `/account/check-auth` succeeds.  A falsy token sets
`isAuthenticated(false)` only when mounted but navigates unconditionally;
a failing check sets state and navigates only when mounted. -/
def checkAuth (mountedAtToken mountedAtCheck : Bool) (tokenResp : Option String)
    (checkOk : Bool) : GuardResult :=
  if !truthyStr tokenResp then
    { setAuthCalls := if mountedAtToken then [false] else []
      navigations := 1
      checkCalls := 0
      checkHeader := none }
  else
    let t := tokenResp.getD ""
    if checkOk then
      { setAuthCalls := if mountedAtCheck then [true] else []
        navigations := 0
        checkCalls := 1
        checkHeader := some ("Bearer " ++ t) }
    else
      { setAuthCalls := if mountedAtCheck then [false] else []
        navigations := if mountedAtCheck then 1 else 0
        checkCalls := 1
        checkHeader := some ("Bearer " ++ t) }

/-! ### Helper lemmas -/

/-- While a refresh is in flight, the entry phase of a fresh 498-failing
request only appends its promise to the queue. -/
theorem respErrorEntry_refreshing (st : SysState) (cfg : ExtendedAxiosRequestConfig)
    (freshId : Nat) (hretry : cfg.retried = false) (href : st.isRefreshing = true) :
    respErrorEntry st 498 cfg freshId =
      ({ st with failedQueue := st.failedQueue ++ [freshId] }, cfg,
       EntryResult.suspended freshId) := by
  simp [respErrorEntry, hretry, href]

/-- Running the entry phase for a batch of fresh 498-failing requests while
a refresh is in flight appends exactly their ids to the queue, in arrival
order, and changes nothing else. -/
theorem enterMany_refreshing (ids : List Nat) (st : SysState)
    (href : st.isRefreshing = true) :
    enterMany ids st = { st with failedQueue := st.failedQueue ++ ids } := by
  induction ids generalizing st with
  | nil => simp [enterMany]
  | cons i is ih =>
    have hstep : (respErrorEntry st 498 freshCfg i).1
        = { st with failedQueue := st.failedQueue ++ [i] } := by
      rw [respErrorEntry_refreshing st freshCfg i rfl href]
    calc enterMany (i :: is) st
        = enterMany is (respErrorEntry st 498 freshCfg i).1 := rfl
      _ = enterMany is { st with failedQueue := st.failedQueue ++ [i] } := by rw [hstep]
      _ = { st with failedQueue := (st.failedQueue ++ [i]) ++ is } :=
          ih { st with failedQueue := st.failedQueue ++ [i] } href
      _ = { st with failedQueue := st.failedQueue ++ i :: is } := by
          simp

/-! ### Claim theorems -/

/-- Claim C1: single-flight refresh — while a refresh is already in flight
(`isRefreshing` is true), a request whose response carries status 498 and
which has not been retried triggers no second refresh call: the handler
pushes the request's resolution onto the pending queue and suspends it
(the triple shows the queue grew by the fresh promise id while the
refresh-call count, the settlements and everything else are untouched,
so the promise stays pending until the in-flight refresh settles). -/
theorem claim1_single_flight (st : SysState) (cfg : ExtendedAxiosRequestConfig)
    (freshId : Nat) (hretry : cfg.retried = false) (href : st.isRefreshing = true) :
    respErrorEntry st 498 cfg freshId =
      ({ st with failedQueue := st.failedQueue ++ [freshId] }, cfg,
       EntryResult.suspended freshId) := by
  simp [respErrorEntry, hretry, href]

/-- Witness for C1 at a concrete refreshing state. -/
theorem claim1_witness :
    respErrorEntry { initSys with isRefreshing := true } 498 freshCfg 5 =
      ({ initSys with isRefreshing := true, failedQueue := [5] }, freshCfg,
       EntryResult.suspended 5) :=
  claim1_single_flight { initSys with isRefreshing := true } freshCfg 5 rfl rfl

/-- Claim C3: on refresh failure the coordinator rejects the entire pending
queue with the triggering (original 498) error in FIFO order, records
exactly one redirect to the login view, issues no further refresh call,
and — for every outcome, success or failure — the `finally` cleanup lowers
the refreshing flag. -/
theorem claim3_refresh_failure (st : SysState) (errStatus : Nat)
    (cfg : ExtendedAxiosRequestConfig) (out : RefreshHttp) :
    ((respErrorContinue st errStatus cfg .fail).1.settlements
        = st.settlements ++ st.failedQueue.map (fun i => (i, Settle.rejected errStatus))) ∧
    (respErrorContinue st errStatus cfg .fail).1.redirects = st.redirects + 1 ∧
    (respErrorContinue st errStatus cfg .fail).1.refreshCalls = st.refreshCalls ∧
    (respErrorContinue st errStatus cfg .fail).2 = FinalResult.rejectOriginal errStatus ∧
    (respErrorContinue st errStatus cfg out).1.isRefreshing = false := by
  refine ⟨?_, ?_, ?_, ?_, ?_⟩
  · simp [respErrorContinue, processQueue, truthyStr]
  · simp [respErrorContinue, processQueue]
  · simp [respErrorContinue, processQueue]
  · simp [respErrorContinue]
  · cases out with
    | ok token =>
      simp only [respErrorContinue]
      split <;> simp [processQueue]
    | fail => simp [respErrorContinue, processQueue]

/-- Claim C10: when the refresh POST succeeds but the response body's token
field is absent or falsy, the pending queue is not processed — no queued
promise is settled and the queue is left as it was — while the `finally`
still resets the refreshing flag, and the handler rejects the original
request with the original 498 error instead of a replayed response. -/
theorem claim10_falsy_token (st : SysState) (errStatus : Nat)
    (cfg : ExtendedAxiosRequestConfig) (token : Option String)
    (hfalsy : truthyStr token = false) :
    respErrorContinue st errStatus cfg (.ok token) =
      ({ st with isRefreshing := false }, FinalResult.rejectOriginal errStatus) := by
  simp [respErrorContinue, hfalsy]

/-- Witness for C10: a successful refresh with an empty token leaves both
queued promises pending, lowers the flag and rejects with the 498. -/
theorem claim10_witness :
    respErrorContinue { initSys with isRefreshing := true, failedQueue := [1, 2] } 498
        freshCfg (.ok (some "")) =
      ({ initSys with failedQueue := [1, 2] }, FinalResult.rejectOriginal 498) :=
  claim10_falsy_token { initSys with isRefreshing := true, failedQueue := [1, 2] } 498
    freshCfg (some "") rfl

/-- Claim C4: with an empty auth-token cache and every attempt failing,
`getAuthToken` issues exactly 2 network attempts, waits exactly the fixed
`retryDelay` once — between attempt 1 and attempt 2, never after the last
attempt — and returns `null` after exhaustion instead of throwing. -/
theorem claim4_retry_exhaustion (retryDelay : Nat) (cookieStr : String)
    (resp : Nat → FetchResult) (st : SysState)
    (hcache : st.authTokenCache = none) (hresp : resp = fun _ => FetchResult.fail) :
    (getAuthToken retryDelay cookieStr resp st).2.1 = none ∧
    (getAuthToken retryDelay cookieStr resp st).2.2.1 = 2 ∧
    (getAuthToken retryDelay cookieStr resp st).2.2.2 = [retryDelay] := by
  subst hresp
  have h : getAuthToken retryDelay cookieStr (fun _ => FetchResult.fail) st
      = ({ (getCsrfTokenU cookieStr st).1 with authTokenCache := none },
         none, 2, [retryDelay]) := by
    unfold getAuthToken
    rw [hcache]
    rfl
  rw [h]
  exact ⟨rfl, rfl, rfl⟩

/-- Witness for C4: both attempts fail from the initial state. -/
theorem claim4_witness :
    (getAuthToken 1000 "" (fun _ => FetchResult.fail) initSys).2.1 = none ∧
    (getAuthToken 1000 "" (fun _ => FetchResult.fail) initSys).2.2.1 = 2 ∧
    (getAuthToken 1000 "" (fun _ => FetchResult.fail) initSys).2.2.2 = [1000] :=
  claim4_retry_exhaustion 1000 "" (fun _ => FetchResult.fail) initSys rfl rfl

/-- Claim C5: the auth-token cache is a correctness-critical fast path: a
non-empty cached value is returned immediately with zero network calls
and no state change, and after one successful fetch of a non-empty token
`t` the cache holds `t`, so every subsequent call returns the same `t`
and issues no further network requests. -/
theorem claim5_cache_fast_path (st : SysState) (t : String) (ht : (t == "") = false) :
    (∀ retryDelay cookieStr resp, st.authTokenCache = some t →
        getAuthToken retryDelay cookieStr resp st = (st, some t, 0, [])) ∧
    (∀ retryDelay cookieStr (resp : Nat → FetchResult) retryDelay2 cookieStr2
        (resp2 : Nat → FetchResult),
        st.authTokenCache = none → resp = (fun _ => FetchResult.ok (some t)) →
        (getAuthToken retryDelay cookieStr resp st).2.1 = some t ∧
        (getAuthToken retryDelay cookieStr resp st).2.2.1 = 1 ∧
        (getAuthToken retryDelay cookieStr resp st).1.authTokenCache = some t ∧
        getAuthToken retryDelay2 cookieStr2 resp2 (getAuthToken retryDelay cookieStr resp st).1
          = ((getAuthToken retryDelay cookieStr resp st).1, some t, 0, [])) := by
  constructor
  · intro rd cs resp hc
    unfold getAuthToken
    rw [hc]
    simp [truthyStr, ht]
  · intro rd cs resp rd2 cs2 resp2 hc hresp
    subst hresp
    have h : getAuthToken rd cs (fun _ => FetchResult.ok (some t)) st
        = ({ (getCsrfTokenU cs st).1 with authTokenCache := some t }, some t, 1, []) := by
      unfold getAuthToken
      rw [hc]
      rfl
    rw [h]
    refine ⟨rfl, rfl, rfl, ?_⟩
    unfold getAuthToken
    simp [truthyStr, ht]

/-- Witness for C5: first call fetches `T1` once, second call is a pure
cache hit. -/
theorem claim5_witness :
    (getAuthToken 1000 "c" (fun _ => FetchResult.ok (some "T1")) initSys).2.1 = some "T1" ∧
    (getAuthToken 1000 "c" (fun _ => FetchResult.ok (some "T1")) initSys).2.2.1 = 1 ∧
    (getAuthToken 1000 "c" (fun _ => FetchResult.ok (some "T1")) initSys).1.authTokenCache
      = some "T1" ∧
    getAuthToken 2000 "d" (fun _ => FetchResult.fail)
        (getAuthToken 1000 "c" (fun _ => FetchResult.ok (some "T1")) initSys).1
      = ((getAuthToken 1000 "c" (fun _ => FetchResult.ok (some "T1")) initSys).1,
         some "T1", 0, []) :=
  (claim5_cache_fast_path initSys "T1" rfl).2 1000 "c" (fun _ => FetchResult.ok (some "T1"))
    2000 "d" (fun _ => FetchResult.fail) rfl rfl

/-- Claim C2: one request starts the refresh while `k` concurrent 498
responses are queued; when the refresh succeeds with a non-empty token the
coordinator has made exactly one refresh call and marked the original
request retried, no queued promise was settled before the outcome, the
new token becomes the default Authorization header, every queued entry is
resolved with the new token in FIFO arrival order, the queue is empty,
and the original request is replayed carrying `Bearer <token>`. -/
theorem claim2_refresh_success (k : Nat) (t : String) (ht : (t == "") = false) :
    ((enterMany (List.range' 1 k) (respErrorEntry initSys 498 freshCfg 0).1).settlements
        = []) ∧
    ((scenarioQ k (.ok (some t))).1.settlements
        = (List.range' 1 k).map (fun i => (i, Settle.resolved t))) ∧
    (scenarioQ k (.ok (some t))).1.defaultsAuth = some ("Bearer " ++ t) ∧
    (scenarioQ k (.ok (some t))).1.failedQueue = [] ∧
    (scenarioQ k (.ok (some t))).1.refreshCalls = 1 ∧
    (scenarioQ k (.ok (some t))).1.isRefreshing = false ∧
    (scenarioQ k (.ok (some t))).2
        = FinalResult.replay { retried := true, authHeader := some ("Bearer " ++ t) } := by
  have hentry : (respErrorEntry initSys 498 freshCfg 0).1
      = { initSys with isRefreshing := true, refreshCalls := 1 } := rfl
  have hmany : enterMany (List.range' 1 k) (respErrorEntry initSys 498 freshCfg 0).1
      = { initSys with
          isRefreshing := true, refreshCalls := 1, failedQueue := List.range' 1 k } := by
    rw [hentry]
    rw [enterMany_refreshing (List.range' 1 k)
        { initSys with isRefreshing := true, refreshCalls := 1 } rfl]
    simp [initSys]
  have hq : scenarioQ k (.ok (some t))
      = respErrorContinue
          { initSys with
            isRefreshing := true, refreshCalls := 1, failedQueue := List.range' 1 k }
          498 { freshCfg with retried := true } (.ok (some t)) := by
    show respErrorContinue
        (enterMany (List.range' 1 k) (respErrorEntry initSys 498 freshCfg 0).1) 498
        (respErrorEntry initSys 498 freshCfg 0).2.1 (.ok (some t)) = _
    rw [hmany]
    rfl
  refine ⟨by rw [hmany]; rfl, ?_⟩
  rw [hq]
  simp [respErrorContinue, processQueue, truthyStr, ht, initSys, freshCfg]

/-- Witness for C2: three concurrent 498s and a refresh returning `T2`. -/
theorem claim2_witness :
    ((enterMany (List.range' 1 3) (respErrorEntry initSys 498 freshCfg 0).1).settlements
        = []) ∧
    ((scenarioQ 3 (.ok (some "T2"))).1.settlements
        = [(1, Settle.resolved "T2"), (2, Settle.resolved "T2"), (3, Settle.resolved "T2")]) ∧
    (scenarioQ 3 (.ok (some "T2"))).1.defaultsAuth = some "Bearer T2" ∧
    (scenarioQ 3 (.ok (some "T2"))).1.failedQueue = [] ∧
    (scenarioQ 3 (.ok (some "T2"))).1.refreshCalls = 1 ∧
    (scenarioQ 3 (.ok (some "T2"))).1.isRefreshing = false ∧
    (scenarioQ 3 (.ok (some "T2"))).2
        = FinalResult.replay { retried := true, authHeader := some "Bearer T2" } :=
  claim2_refresh_success 3 "T2" rfl

/-- Claim C6 counterexample: the coordinator handles a 498 with cached
auth token `T1`, obtains new token `T2` and processes the queue — yet the
cached auth token (the CredentialStore's `authTokenCache`) still holds
`T1`, not `T2`: the source deliberately comments "Do not directly mutate
authTokenCache here" and only sets the axios default header. -/
theorem claim6_cex :
    ((respErrorContinue
        { initSys with authTokenCache := some "T1", isRefreshing := true, failedQueue := [1] }
        498 freshCfg (.ok (some "T2"))).1.settlements = [(1, Settle.resolved "T2")]) ∧
    (respErrorContinue
        { initSys with authTokenCache := some "T1", isRefreshing := true, failedQueue := [1] }
        498 freshCfg (.ok (some "T2"))).1.authTokenCache ≠ some "T2" := by
  decide

/-- Claim C6 (amended): after handling a 498 and obtaining a new token,
the coordinator does not write the cached auth token — every coordinator
phase and both CSRF lookups leave `authTokenCache` unchanged — and
instead installs the new token as the axios default Authorization header
used by the replays; the cached auth token is mutated only by the token
fetcher, which stores the token it fetched. -/
theorem claim6_amended (st : SysState) (errStatus freshId : Nat)
    (cfg : ExtendedAxiosRequestConfig) (out : RefreshHttp) (cookieStr : String)
    (t : String) (ht : (t == "") = false) :
    (respErrorEntry st errStatus cfg freshId).1.authTokenCache = st.authTokenCache ∧
    (respErrorContinue st errStatus cfg out).1.authTokenCache = st.authTokenCache ∧
    (getCsrfTokenU cookieStr st).1.authTokenCache = st.authTokenCache ∧
    (getCsrfTokenA cookieStr st).1.authTokenCache = st.authTokenCache ∧
    (respErrorContinue st errStatus cfg (.ok (some t))).1.defaultsAuth
        = some ("Bearer " ++ t) ∧
    (∀ retryDelay (resp : Nat → FetchResult), st.authTokenCache = none →
        resp = (fun _ => FetchResult.ok (some t)) →
        (getAuthToken retryDelay cookieStr resp st).1.authTokenCache = some t) := by
  refine ⟨?_, ?_, ?_, ?_, ?_, ?_⟩
  · simp only [respErrorEntry]
    split
    · split <;> rfl
    · rfl
  · cases out with
    | ok token =>
      simp only [respErrorContinue]
      split <;> simp [processQueue]
    | fail => simp [respErrorContinue, processQueue]
  · rfl
  · rfl
  · simp [respErrorContinue, processQueue, truthyStr, ht]
  · intro rd resp hc hresp
    subst hresp
    unfold getAuthToken
    rw [hc]
    rfl

/-- Witness for the amended C6 at concrete inputs. -/
theorem claim6_witness :
    (respErrorEntry initSys 498 freshCfg 7).1.authTokenCache = none ∧
    (respErrorContinue initSys 498 freshCfg (.ok (some "T2"))).1.defaultsAuth
        = some "Bearer T2" ∧
    (getAuthToken 1000 "c" (fun _ => FetchResult.ok (some "T2")) initSys).1.authTokenCache
        = some "T2" :=
  ⟨(claim6_amended initSys 498 7 freshCfg (.ok none) "c" "T2" rfl).1,
   (claim6_amended initSys 498 7 freshCfg (.ok none) "c" "T2" rfl).2.2.2.2.1,
   (claim6_amended initSys 498 7 freshCfg (.ok none) "c" "T2" rfl).2.2.2.2.2 1000
     (fun _ => FetchResult.ok (some "T2")) rfl rfl⟩

/-- Claim C7 counterexample: with cookie `XSRF-TOKEN=abc123` present, a
lookup through the axios module's `getCsrfToken` and one through the
utils module's `getCsrfToken` each parse the cookie (the two caches are
separate), so the process performs 2 cookie parses across CSRF lookups —
refuting "cookie parsing happens at most once per execution context
across all CSRF lookups". -/
theorem claim7_cex :
    ((getCsrfTokenA "XSRF-TOKEN=abc123" initSys).2.1 = some "abc123") ∧
    ((getCsrfTokenU "XSRF-TOKEN=abc123"
        (getCsrfTokenA "XSRF-TOKEN=abc123" initSys).1).2.1 = some "abc123") ∧
    ((getCsrfTokenA "XSRF-TOKEN=abc123" initSys).2.2
      + (getCsrfTokenU "XSRF-TOKEN=abc123"
          (getCsrfTokenA "XSRF-TOKEN=abc123" initSys).1).2.2 = 2) ∧
    ¬((getCsrfTokenA "XSRF-TOKEN=abc123" initSys).2.2
      + (getCsrfTokenU "XSRF-TOKEN=abc123"
          (getCsrfTokenA "XSRF-TOKEN=abc123" initSys).1).2.2 ≤ 1) := by
  decide

/-- Claim C7 (amended): each of the two duplicated `getCsrfToken`
implementations separately meets the contract: on an empty cache it
parses the cookie once and, when the percent-decoded `XSRF-TOKEN` value
is present (truthy), caches and returns it; a truthy cached value is
returned with zero parses; a missing cookie yields absence (logged, not
thrown) with nothing cached.  Cookie parsing is thus at most once per
module-level cache — but not per execution context, since the two copies
keep separate caches (see the counterexample). -/
theorem claim7_csrf_cache (cookieStr v : String)
    (hv : getCookieByName cookieStr "XSRF-TOKEN" = some v) (hvt : (v == "") = false) :
    getCsrfTokenCore cookieStr none = (some v, some v, 1) ∧
    (∀ w, (w == "") = false → getCsrfTokenCore cookieStr (some w) = (some w, some w, 0)) ∧
    (∀ cs2, getCookieByName cs2 "XSRF-TOKEN" = none →
        getCsrfTokenCore cs2 none = (none, none, 1)) := by
  refine ⟨?_, ?_, ?_⟩
  · simp [getCsrfTokenCore, truthyStr, hv, hvt]
  · intro w hw
    simp [getCsrfTokenCore, truthyStr, hw]
  · intro cs2 h2
    simp [getCsrfTokenCore, truthyStr, h2]

/-- Witness for the amended C7: first lookup parses and caches `abc123`;
a lookup with an empty cookie string signals absence. -/
theorem claim7_witness :
    getCsrfTokenCore "XSRF-TOKEN=abc123" none = (some "abc123", some "abc123", 1) ∧
    getCsrfTokenCore "" none = (none, none, 1) :=
  ⟨(claim7_csrf_cache "XSRF-TOKEN=abc123" "abc123" (by decide) rfl).1,
   (claim7_csrf_cache "XSRF-TOKEN=abc123" "abc123" (by decide) rfl).2.2 "" (by decide)⟩

/-- Claim C8 counterexample: request 0 starts a refresh and request 1 is
queued; the refresh succeeds with no token in the body.  Afterwards
`isRefreshing` is false while the queue still holds the queued entry and
nothing was ever settled: the queue is non-empty outside `Refreshing`,
and this cycle ended without draining it. -/
theorem claim8_cex :
    (scenarioQ 1 (.ok none)).1.isRefreshing = false ∧
    (scenarioQ 1 (.ok none)).1.failedQueue = [1] ∧
    (scenarioQ 1 (.ok none)).1.settlements = [] := by
  decide

/-- Claim C8 (amended): the RefreshState invariant holds for every refresh
completion that either fails or carries a truthy token: the entry phase
preserves "queue non-empty → refreshing", and such a completion empties
the queue, settling each queued entry exactly once (one settlement
appended per entry, in queue order) — rejected with the triggering error
on failure, resolved with the token on success.  The falsy-token success
path violates the invariant (see the counterexample). -/
theorem claim8_invariant (st : SysState) (errStatus freshId : Nat)
    (cfg : ExtendedAxiosRequestConfig) (out : RefreshHttp)
    (hgood : out = RefreshHttp.fail ∨
      ∃ t, out = RefreshHttp.ok (some t) ∧ (t == "") = false) :
    ((st.failedQueue ≠ [] → st.isRefreshing = true) →
      ((respErrorEntry st errStatus cfg freshId).1.failedQueue ≠ [] →
        (respErrorEntry st errStatus cfg freshId).1.isRefreshing = true)) ∧
    (respErrorContinue st errStatus cfg out).1.failedQueue = [] ∧
    ((respErrorContinue st errStatus cfg .fail).1.settlements
        = st.settlements ++ st.failedQueue.map (fun i => (i, Settle.rejected errStatus))) ∧
    (∀ t, (t == "") = false →
        (respErrorContinue st errStatus cfg (.ok (some t))).1.settlements
          = st.settlements ++ st.failedQueue.map (fun i => (i, Settle.resolved t))) := by
  refine ⟨?_, ?_, ?_, ?_⟩
  · intro hinv
    simp only [respErrorEntry]
    split
    · split
      · next href => intro _; simpa using href
      · intro _; rfl
    · intro h; exact hinv h
  · rcases hgood with h | ⟨t, hout, ht⟩
    · subst h
      simp [respErrorContinue, processQueue]
    · subst hout
      simp [respErrorContinue, processQueue, truthyStr, ht]
  · simp [respErrorContinue, processQueue, truthyStr]
  · intro t ht
    simp [respErrorContinue, processQueue, truthyStr, ht]

/-- Witness for the amended C8: a failing refresh drains a two-element
queue exactly once, in order. -/
theorem claim8_witness :
    (respErrorContinue { initSys with isRefreshing := true, failedQueue := [1, 2] } 498
        freshCfg RefreshHttp.fail).1.failedQueue = [] ∧
    (respErrorContinue { initSys with isRefreshing := true, failedQueue := [1, 2] } 498
        freshCfg RefreshHttp.fail).1.settlements
      = [(1, Settle.rejected 498), (2, Settle.rejected 498)] :=
  ⟨(claim8_invariant { initSys with isRefreshing := true, failedQueue := [1, 2] } 498 0
      freshCfg RefreshHttp.fail (Or.inl rfl)).2.1,
   (claim8_invariant { initSys with isRefreshing := true, failedQueue := [1, 2] } 498 0
      freshCfg RefreshHttp.fail (Or.inl rfl)).2.2.1⟩

/-- Claim C9: the session guard fetches the auth token and then calls
the protected check endpoint presenting `Bearer <token>`; its observable
outcomes are Loading initially (`isAuthenticated = null`), Authenticated
when the check succeeds, and Unauthenticated with a login redirect when
the token is missing or the check fails; once deactivated (unmounted) it
performs no `setIsAuthenticated` state mutation from a still-completing
check: with a token present the mutation is guarded by the mount flag at
check completion (so unmounting between the token fetch and the check —
`m1 = true, m2 = false` — mutates nothing), and with the token missing
it is guarded by the mount flag at token completion. -/
theorem claim9_session_guard (m1 m2 : Bool) (tokenResp : Option String) (checkOk : Bool) :
    initialIsAuthenticated = none ∧
    (∀ t, (t == "") = false → tokenResp = some t →
      (checkAuth m1 m2 tokenResp checkOk).checkCalls = 1 ∧
      (checkAuth m1 m2 tokenResp checkOk).checkHeader = some ("Bearer " ++ t)) ∧
    (truthyStr tokenResp = false →
      (checkAuth m1 m2 tokenResp checkOk).checkCalls = 0 ∧
      (checkAuth m1 m2 tokenResp checkOk).navigations = 1 ∧
      (m1 = true → (checkAuth m1 m2 tokenResp checkOk).setAuthCalls = [false])) ∧
    (∀ t, (t == "") = false → tokenResp = some t → m2 = true →
      (checkOk = true → (checkAuth m1 m2 tokenResp checkOk).setAuthCalls = [true] ∧
        (checkAuth m1 m2 tokenResp checkOk).navigations = 0) ∧
      (checkOk = false → (checkAuth m1 m2 tokenResp checkOk).setAuthCalls = [false] ∧
        (checkAuth m1 m2 tokenResp checkOk).navigations = 1)) ∧
    (truthyStr tokenResp = true → m2 = false →
      (checkAuth m1 m2 tokenResp checkOk).setAuthCalls = []) ∧
    (truthyStr tokenResp = false → m1 = false →
      (checkAuth m1 m2 tokenResp checkOk).setAuthCalls = []) := by
  refine ⟨rfl, ?_, ?_, ?_, ?_, ?_⟩
  · intro t ht hres
    subst hres
    cases checkOk <;> simp [checkAuth, truthyStr, ht]
  · intro hfalsy
    refine ⟨?_, ?_, ?_⟩
    · simp [checkAuth, hfalsy]
    · simp [checkAuth, hfalsy]
    · intro hm1
      subst hm1
      simp [checkAuth, hfalsy]
  · intro t ht hres hm2
    subst hres
    subst hm2
    constructor
    · intro hco
      subst hco
      simp [checkAuth, truthyStr, ht]
    · intro hco
      subst hco
      simp [checkAuth, truthyStr, ht]
  · intro htr hm2
    subst hm2
    cases checkOk <;> simp [checkAuth, htr]
  · intro hfalsy hm1
    subst hm1
    simp [checkAuth, hfalsy]

/-- Witness for C9: a mounted guard with token `T1` and a succeeding
check authenticates without redirect; a guard unmounted between the
token fetch and the check completing mutates no state, and neither does
one unmounted before a failing token fetch settles. -/
theorem claim9_witness :
    ((checkAuth true true (some "T1") true).setAuthCalls = [true] ∧
     (checkAuth true true (some "T1") true).navigations = 0) ∧
    (checkAuth true true (some "T1") true).checkHeader = some "Bearer T1" ∧
    (checkAuth true false (some "T1") true).setAuthCalls = [] ∧
    (checkAuth false false none true).setAuthCalls = [] :=
  ⟨((claim9_session_guard true true (some "T1") true).2.2.2.1 "T1" rfl rfl rfl).1 rfl,
   ((claim9_session_guard true true (some "T1") true).2.1 "T1" rfl rfl).2,
   (claim9_session_guard true false (some "T1") true).2.2.2.2.1 rfl rfl,
   (claim9_session_guard false false none true).2.2.2.2.2 rfl rfl⟩
